import Mathlib

/-!
Verification of the API Runner core of `tr_apisimulator`
(`src/lib/request.ts`, `src/lib/dataset.ts`, `src/lib/hubspot.ts`,
`src/lib/mapping.ts`, `src/app/api/proxy/route.ts`).

JavaScript runtime values are embedded as the inductive `JValue`
(`undef` models JS `undefined`; numbers are modelled as integers, which
covers every numeric literal the repository manipulates).  JS objects are
insertion-ordered key/value lists; records such as `headers`, `query` and
the property mappings are `List (String × String)` / `List (String × JValue)`
with first-match lookup and update-in-place-or-append assignment, exactly
the behaviour of plain JS objects with unique keys.  The network is an
explicit oracle `net : ProxyRequest → ProxyResponse`; every function that
performs requests also returns the list of requests it issued, in order.
-/

namespace ApiSim

/-- JS runtime values (JSON values plus `undefined`). -/
inductive JValue where
  | undefined
  | null
  | bool (b : Bool)
  | num (n : Int)
  | str (s : String)
  | arr (elems : List JValue)
  | obj (fields : List (String × JValue))
deriving Repr

/-- JSON string escaping for `"` and `\` (the only escapes the values in
this development ever need; control-character escapes are not modelled). -/
def escChar (c : Char) : List Char :=
  if c = '"' ∨ c = '\\' then ['\\', c] else [c]

def escapeJson (s : String) : String :=
  String.mk ((s.data.map escChar).flatten)

def quoteJson (s : String) : String :=
  "\"" ++ escapeJson s ++ "\""

mutual

/-- Model of JS `JSON.stringify`: `none` is the JS `undefined` result (for input
`undefined`); inside arrays `undefined` serializes as `null`, inside
objects fields with `undefined` values are dropped. -/
def stringifyJs : JValue → Option String
  | .undefined => none
  | .null => some "null"
  | .bool b => some (if b then "true" else "false")
  | .num n => some (toString n)
  | .str s => some (quoteJson s)
  | .arr xs => some ("[" ++ String.intercalate "," (stringifyArr xs) ++ "]")
  | .obj fs => some ("\x7b" ++ String.intercalate "," (stringifyFields fs) ++ "\x7d")

def stringifyArr : List JValue → List String
  | [] => []
  | x :: xs =>
    (match stringifyJs x with
     | some s => s
     | none => "null") :: stringifyArr xs

def stringifyFields : List (String × JValue) → List String
  | [] => []
  | (k, v) :: fs =>
    (match stringifyJs v with
     | some s => [quoteJson k ++ ":" ++ s]
     | none => []) ++ stringifyFields fs

end

/-- First-match lookup in a JS-object-like record (`o[k]`, key present). -/
def getField {α : Type} : List (String × α) → String → Option α
  | [], _ => none
  | (k, v) :: fs, key => if k = key then some v else getField fs key

/-- JS object assignment `o[k] = v`: replaces the value in place when the
key exists, appends the key otherwise (JS insertion-order semantics). -/
def setField {α : Type} : List (String × α) → String → α → List (String × α)
  | [], key, v => [(key, v)]
  | (k, w) :: fs, key, v =>
    if k = key then (key, v) :: fs else (k, w) :: setField fs key v

/-- Lookup `o[k]` as a JS expression: missing keys read as `undefined`. -/
def objGet (fs : List (String × JValue)) (k : String) : JValue :=
  (getField fs k).getD .undefined

/-- JS truthiness (`NaN` does not arise in the integer number model). -/
def jsTruthy : JValue → Bool
  | .undefined => false
  | .null => false
  | .bool b => b
  | .num n => n ≠ 0
  | .str s => s ≠ ""
  | .arr _ => true
  | .obj _ => true

/-- Coercion `String(v)`, as used by `${id}`/`String(id)` in the source. -/
def jsToString : JValue → String
  | .undefined => "undefined"
  | .null => "null"
  | .bool b => if b then "true" else "false"
  | .num n => toString n
  | .str s => s
  | .arr _ => ""
  | .obj _ => "[object Object]"

/-- ASCII `toLowerCase` on one character (the only case-folding the
repository's header comparison needs). -/
def charLower (c : Char) : Char :=
  if 65 ≤ c.toNat ∧ c.toNat ≤ 90 then Char.ofNat (c.toNat + 32) else c

def lowerChars (cs : List Char) : List Char :=
  cs.map charLower

/-- JS `String.prototype.split` on a single-character separator. -/
def splitOnChar (sep : Char) : List Char → List (List Char)
  | [] => [[]]
  | c :: cs =>
    let rest := splitOnChar sep cs
    if c = sep then [] :: rest
    else
      match rest with
      | [] => [[c]]
      | r :: rs => (c :: r) :: rs

def isDigitChar (c : Char) : Bool :=
  48 ≤ c.toNat ∧ c.toNat ≤ 57

/-- A canonical array index (`arr[k]` hits an element only when `k` is the
canonical decimal spelling of a valid index, per JS property semantics). -/
def parseIndex (cs : List Char) : Option Nat :=
  if cs ≠ [] ∧ cs.all isDigitChar ∧ (cs = ['0'] ∨ cs.head? ≠ some '0') then
    some (cs.foldl (fun n c => n * 10 + (c.toNat - 48)) 0)
  else none

/-- JS `String.prototype.replaceAll` with a non-empty literal pattern,
fuelled by the subject length (one character is consumed per step, so the
subject's length is always enough fuel). -/
def replaceAllAux : Nat → List Char → List Char → List Char → List Char
  | 0, s, _, _ => s
  | Nat.succ fuel, s, pat, rep =>
    match s with
    | [] => []
    | c :: cs =>
      if pat ≠ [] ∧ pat.isPrefixOf (c :: cs) then
        rep ++ replaceAllAux fuel ((c :: cs).drop pat.length) pat rep
      else c :: replaceAllAux fuel cs pat rep

def replaceAll (s pat rep : String) : String :=
  String.mk (replaceAllAux s.data.length s.data pat.data rep.data)

/-- Iteration order of `new Set([...])`: first occurrences, in order. -/
def dedupFirst : List String → List String
  | [] => []
  | k :: ks => k :: (dedupFirst ks).filter (fun k2 => k2 ≠ k)

/-- Comparison key: `stringifyJs` lifted to possibly-`undefined` lookups; two record fields
compare equal in `diffProperties` iff these results coincide. -/
def stringifyAt (cur : List (String × JValue)) (k : String) : Option String :=
  stringifyJs (objGet cur k)

/-- Function `diffProperties` from `src/ui/src/lib/mapping.ts`: walks the union of
the keys of both records (first-occurrence order), keeping those whose values
have different `JSON.stringify` serializations, paired as `(from, to)`. -/
def diffProperties (current next : List (String × JValue)) :
    List (String × (JValue × JValue)) :=
  let keys := dedupFirst (current.map Prod.fst ++ next.map Prod.fst)
  keys.foldl
    (fun changes k =>
      let a := objGet current k
      let b := objGet next k
      if stringifyJs a ≠ stringifyJs b then changes ++ [(k, (a, b))] else changes)
    []

/-- Character-code ordering on keys (spec-side helper for the canonical
key sort). -/
def keyLt : List Char → List Char → Bool
  | [], [] => false
  | [], _ :: _ => true
  | _ :: _, [] => false
  | a :: as, b :: bs =>
    if a.toNat < b.toNat then true
    else if b.toNat < a.toNat then false
    else keyLt as bs

def keyLe (a b : String) : Bool :=
  !(keyLt b.data a.data)

/-- Insert a field into a key-sorted field list (spec-side helper). -/
def insertSorted (p : String × JValue) : List (String × JValue) → List (String × JValue)
  | [] => [p]
  | q :: qs => if keyLe p.1 q.1 then p :: q :: qs else q :: insertSorted p qs

def sortFields (fs : List (String × JValue)) : List (String × JValue) :=
  fs.foldr insertSorted []

mutual

/-- Modelled from the spec: the key-order-independent canonicalization the
spec's §4.4 diff-equality describes ("a canonicalization that is
order-independent for object keys").  This is deliberately NOT the source
`diffProperties` comparison; it exists to compare the spec's equality
notion against the source's `JSON.stringify` comparison. -/
def canonJson : JValue → JValue
  | .arr xs => .arr (canonArr xs)
  | .obj fs => .obj (sortFields (canonFields fs))
  | v => v

def canonArr : List JValue → List JValue
  | [] => []
  | x :: xs => canonJson x :: canonArr xs

def canonFields : List (String × JValue) → List (String × JValue)
  | [] => []
  | (k, v) :: fs => (k, canonJson v) :: canonFields fs

end

/-- Modelled from the spec: "two values are equal iff their canonical JSON
text representations are identical" with a key-order-independent
canonicalization. -/
def specCanonEq (a b : JValue) : Bool :=
  stringifyJs (canonJson a) = stringifyJs (canonJson b)

end ApiSim

namespace ApiSim

/-- The `auth` variant of an `ApiProfile` (`@/types`): `type` is the TS
string literal union; the switch in `applyAuth` treats unknown values as
`none`. -/
structure AuthConfig where
  type : String
  apiKeyHeaderName : Option String := none
  apiKeyQueryName : Option String := none
  apiKey : Option String := none
  bearerToken : Option String := none
deriving Repr

/-- Structure `ApiProfile` (`@/types`): one declarative HTTP request intent. -/
structure ApiProfile where
  name : Option String := none
  baseUrl : String
  path : String
  method : String
  headers : List (String × String) := []
  query : List (String × String) := []
  body : JValue := .undefined
  auth : Option AuthConfig := none
deriving Repr

/-- Wire-level request (`ProxyRequest` in `@/types`). -/
structure ProxyRequest where
  url : String
  method : String
  headers : List (String × String)
  body : JValue := .undefined
deriving Repr

/-- An upsert plan (`UpsertPlan` in `src/lib/hubspot.ts`).  `matchEmail`
and `id` hold whatever runtime value the source assigns (`properties.email`
and `first.id` respectively, hence `JValue`); absent fields are `undef` /
`none`, matching TS object literals that omit them. -/
structure UpsertPlan where
  action : String
  matchEmail : JValue := .undefined
  id : JValue := .undefined
  properties : List (String × JValue) := []
  diff : Option (List (String × (JValue × JValue))) := none
deriving Repr

/-- The runtime value stored in a `ProxyResponse`'s `data` slot: absent,
a parsed JSON body, or (for the synthetic upsert-executor responses) the
plan object itself. -/
inductive RData where
  | undefined
  | json (v : JValue)
  | plan (p : UpsertPlan)
deriving Repr

/-- Normalized response (`ProxyResponse` in `@/types`). -/
structure ProxyResponse where
  ok : Bool
  status : Int
  statusText : String
  headers : List (String × String) := []
  data : RData := .undefined
  rawText : Option String := none
  durationMs : Option Int := none
deriving Repr

/-- JS `a || b` on an optional string (`undefined` and `""` both fall
through to the default, as JS falsiness dictates). -/
def jsOrStr (o : Option String) (d : String) : String :=
  match o with
  | some s => if s = "" then d else s
  | none => d

/-- Truthiness of an optional string field (`if (profile.auth.apiKey)`). -/
def truthyStr (o : Option String) : Bool :=
  match o with
  | some s => s ≠ ""
  | none => false

structure AuthResult where
  headers : List (String × String)
  query : List (String × String)
deriving Repr

/-- Function `applyAuth` from `src/lib/request.ts` (`src/unnamed/part_000`): starts
from copies of the profile's headers/query and injects the configured auth
strategy; unknown/absent auth type falls through unchanged. -/
def applyAuth (profile : ApiProfile) : AuthResult :=
  let headers := profile.headers
  let query := profile.query
  match profile.auth with
  | none => { headers, query }
  | some auth =>
    if auth.type = "apiKeyHeader" then
      let headerName := jsOrStr auth.apiKeyHeaderName "Authorization"
      if truthyStr auth.apiKey then
        { headers := setField headers headerName (auth.apiKey.getD ""), query }
      else { headers, query }
    else if auth.type = "apiKeyQuery" then
      let queryName := jsOrStr auth.apiKeyQueryName "api_key"
      if truthyStr auth.apiKey then
        { headers, query := setField query queryName (auth.apiKey.getD "") }
      else { headers, query }
    else if auth.type = "bearer" then
      if truthyStr auth.bearerToken then
        { headers := setField headers "Authorization" ("Bearer " ++ auth.bearerToken.getD ""), query }
      else { headers, query }
    else { headers, query }

/-- Model of `baseUrl.replace(/\/$/, '')` — drop a single trailing slash. -/
def dropTrailingSlash (cs : List Char) : List Char :=
  if cs.getLast? = some '/' then cs.dropLast else cs

def stripTrailingSlash (s : String) : String :=
  String.mk (dropTrailingSlash s.data)

/-- Model of `path ? (path.startsWith('/') ? path : '/' + path) : ''`. -/
def ensureLeadingSlash (p : List Char) : List Char :=
  if p = [] then [] else if p.head? = some '/' then p else '/' :: p

/-- The character list following the first `://`, if any. -/
def afterScheme : List Char → Option (List Char)
  | [] => none
  | ':' :: '/' :: '/' :: rest => some rest
  | _ :: cs => afterScheme cs

/-- Models `new URL(s).toString()` on the subset of absolute URLs the
WHATWG parse-serialize round trip leaves verbatim — scheme `://`, a
`plainHost` authority and a `plainPath` path — where the serializer is
the identity, except that a URL with an empty path gains a single `/`
(e.g. `https://h` → `https://h/`).  Outside that subset the real
constructor percent-encodes, lowers or IPv4-reparses hosts, rewrites `\`
to `/`, removes `.`/`..` segments, or throws on an empty or invalid
host; none of that is modelled, so every universally quantified theorem
about `buildUrl` carries `plainHost`/`plainPath` hypotheses confining it
to the modelled subset (concrete URLs in this file lie inside it). -/
def urlToString (s : String) : String :=
  match afterScheme s.data with
  | some rest => if '/' ∈ rest then s else s ++ "/"
  | none => s

/-- The loop over `Object.entries(query)` calling
`url.searchParams.set(k, v)` for truthy-string values. -/
def collectParams (query : List (String × String)) : List (String × String) :=
  query.foldl (fun acc kv => if kv.2 ≠ "" then setField acc kv.1 kv.2 else acc) []

/-- Serialization of the collected search params (percent-encoding is not
modelled; no key or value in this development needs it). -/
def renderQuery (params : List (String × String)) : String :=
  match params with
  | [] => ""
  | _ => "?" ++ String.intercalate "&" (params.map (fun kv => kv.1 ++ "=" ++ kv.2))

/-- Function `buildUrl` from `src/lib/request.ts` (`src/unnamed/part_000`). -/
def buildUrl (baseUrl path : String) (query : List (String × String)) : String :=
  let base := stripTrailingSlash baseUrl
  let p := String.mk (ensureLeadingSlash path.data)
  urlToString (base ++ p) ++ renderQuery (collectParams query)

/-- Function `buildProxyPayload` from `src/lib/request.ts` (`src/unnamed/part_000`):
note that `body` is passed through unconditionally. -/
def buildProxyPayload (profile : ApiProfile) : ProxyRequest :=
  let ar := applyAuth profile
  { url := buildUrl profile.baseUrl profile.path ar.query,
    method := profile.method,
    headers := ar.headers,
    body := profile.body }

/-- Predicate `k.toLowerCase().startsWith('host')`. -/
def startsWithHost (k : String) : Bool :=
  "host".data.isPrefixOf (lowerChars k.data)

/-- The outbound `fetch` arguments assembled by the `POST` handler of
`src/app/api/proxy/route.ts`: host-prefixed headers are stripped, the body
is dropped for GET/HEAD and JSON-serialized otherwise. -/
structure ForwardedRequest where
  url : String
  method : String
  headers : List (String × String)
  body : Option String
deriving Repr

def forwardRequest (body : ProxyRequest) : ForwardedRequest :=
  { url := body.url,
    method := body.method,
    headers := body.headers.filter (fun kv => !(startsWithHost kv.1)),
    body :=
      if body.method = "GET" ∨ body.method = "HEAD" then none
      else stringifyJs body.body }

end ApiSim

namespace ApiSim

/-- Function `runProxy` from `src/lib/request.ts`, with the network as an explicit
oracle: one call to `/api/proxy` is one oracle application, and the issued
request is recorded.  The wall-clock `durationMs` fallback
(`json.durationMs ?? Date.now() - started`) only fills a missing duration
with an elapsed time; responses keep the duration the oracle supplies. -/
def runProxy (net : ProxyRequest → ProxyResponse) (payload : ProxyRequest) :
    ProxyResponse × List ProxyRequest :=
  (net payload, [payload])

/-- Functions `runRequest`/`runProfile`: resolve a profile and execute it. -/
def runProfile (net : ProxyRequest → ProxyResponse) (profile : ApiProfile) :
    ProxyResponse × List ProxyRequest :=
  runProxy net (buildProxyPayload profile)

/-- Property access `acc[key]` inside the dot-path walker `get` of
`src/ui/src/lib/mapping.ts`.  Objects look keys up; arrays accept
canonical numeric keys and `length`; strings accept numeric indexing and
`length`; every other base value yields `undefined`.  (Prototype-chain
properties beyond these are not modelled; nothing in the repository
reaches them.) -/
def jsIndex : JValue → String → JValue
  | .obj fs, k => objGet fs k
  | .arr xs, k =>
    if k = "length" then .num xs.length
    else
      match parseIndex k.data with
      | some i => (xs.get? i).getD .undefined
      | none => .undefined
  | .str s, k =>
    if k = "length" then .num s.length
    else
      match parseIndex k.data with
      | some i =>
        match s.data.get? i with
        | some c => .str (String.mk [c])
        | none => .undefined
      | none => .undefined
  | _, _ => .undefined

/-- Function `get(obj, path)` from `src/ui/src/lib/mapping.ts`: empty path returns
the object; otherwise fold `acc ? acc[key] : undefined` over the
dot-separated segments. -/
def getPath (v : JValue) (path : String) : JValue :=
  if path = "" then v
  else
    ((splitOnChar '.' path.data).map String.mk).foldl
      (fun acc key => if jsTruthy acc then jsIndex acc key else .undefined) v

/-- Rule type: `mapExternalToHubspot` needs no transform functions for any claim, so
rules are modelled without the optional `transform`. -/
structure MappingRule where
  from2 : String
  to2 : String
deriving Repr

def mapExternalToHubspot (rules : List MappingRule) (externalRow : JValue) :
    List (String × JValue) :=
  rules.foldl
    (fun props r =>
      let raw := getPath externalRow r.from2
      match raw with
      | .undefined => props
      | v => setField props r.to2 v)
    []

/-- The `data` slot as a JS value (`undefined` when absent). -/
def toJV : RData → JValue
  | .undefined => .undefined
  | .json v => v
  | .plan _ => .undefined

/-- Function `interpolate(template, vars)` from `src/ui/src/lib/dataset.ts`:
`replaceAll` of `\x7bk\x7d` by each variable, in order. -/
def interpolate (template : String) (vars : List (String × String)) : String :=
  vars.foldl (fun out kv => replaceAll out ("\x7b" ++ kv.1 ++ "\x7d") kv.2) template

structure DatasetOptions where
  maxItems : Option Nat := none
  detailProfile : Option ApiProfile := none
  idPath : Option String := none
  idVarName : Option String := none
deriving Repr

/-- Structure `BuiltDataset` from `src/ui/src/lib/dataset.ts`. -/
structure BuiltDataset where
  sourceName : Option String
  rows : List RData
deriving Repr

/-- The error-marker row pushed for a failed detail fetch. -/
def errorRow (status : Int) (statusText : String) : RData :=
  .json (.obj [("__error", .bool true), ("status", .num status), ("statusText", .str statusText)])

/-- The items resolved at `arrayPath`: a non-array value degrades to `[]`. -/
def listItems (data : JValue) (arrayPath : String) : List JValue :=
  match getPath data arrayPath with
  | .arr xs => xs
  | _ => []

/-- The per-item detail profile: `cloneProfile` (a JSON round-trip, the
identity in this model) plus the `\x7bidVarName\x7d` path substitution when
both an id was found (truthy) and `idVarName` is set (truthy string). -/
def detailProfileFor (options : DatasetOptions) (dprof : ApiProfile) (it : JValue) : ApiProfile :=
  let id := match options.idPath with
    | some ip => getPath it ip
    | none => .undefined
  if jsTruthy id ∧ truthyStr options.idVarName then
    { dprof with path := interpolate dprof.path [(options.idVarName.getD "", jsToString id)] }
  else dprof

def detailRequest (options : DatasetOptions) (dprof : ApiProfile) (it : JValue) : ProxyRequest :=
  buildProxyPayload (detailProfileFor options dprof it)

/-- One iteration of the detail loop: push the parsed body on success, the
error marker on failure. -/
def detailRow (net : ProxyRequest → ProxyResponse) (options : DatasetOptions)
    (dprof : ApiProfile) (it : JValue) : RData :=
  let dres := net (detailRequest options dprof it)
  if dres.ok then dres.data else errorRow dres.status dres.statusText

/-- The truncated list items `limited` inside `buildDataset`. -/
def truncItems (net : ProxyRequest → ProxyResponse) (listProfile : ApiProfile)
    (arrayPath : String) (options : DatasetOptions) : List JValue :=
  (listItems (toJV (net (buildProxyPayload listProfile)).data) arrayPath).take
    (options.maxItems.getD 20)

/-- Function `buildDataset` from `src/ui/src/lib/dataset.ts`.  `Except.error` models
the thrown `Error`; the second component lists every request issued, in
order. -/
def buildDataset (net : ProxyRequest → ProxyResponse) (listProfile : ApiProfile)
    (arrayPath : String) (options : DatasetOptions) :
    Except String (BuiltDataset × List ProxyRequest) :=
  let listReq := buildProxyPayload listProfile
  let res := net listReq
  if res.ok = false then
    .error ("List request failed: " ++ toString res.status ++ " " ++ res.statusText)
  else
    let limited := truncItems net listProfile arrayPath options
    match options.detailProfile with
    | none => .ok ({ sourceName := listProfile.name, rows := limited.map RData.json }, [listReq])
    | some dprof =>
      .ok ({ sourceName := listProfile.name,
             rows := limited.map (detailRow net options dprof) },
           listReq :: limited.map (detailRequest options dprof))

end ApiSim

namespace ApiSim

/-- Function `ensureBearerHeaders` from `src/lib/hubspot.ts` (`src/unnamed/part_001`). -/
def ensureBearerHeaders (profile : ApiProfile) : List (String × String) :=
  let headers := profile.headers
  let headers :=
    match profile.auth with
    | some a =>
      if a.type = "bearer" ∧ truthyStr a.bearerToken then
        setField headers "Authorization" ("Bearer " ++ a.bearerToken.getD "")
      else headers
    | none => headers
  setField headers "Content-Type" (jsOrStr (getField headers "Content-Type") "application/json")

/-- The search payload assembled by `searchContactByEmail`. -/
def searchRequest (base : ApiProfile) (email : JValue) : ProxyRequest :=
  { url := buildUrl base.baseUrl "/crm/v3/objects/contacts/search" [],
    method := "POST",
    headers := ensureBearerHeaders base,
    body := .obj [
      ("filterGroups", .arr [.obj [("filters", .arr [.obj [
        ("propertyName", .str "email"), ("operator", .str "EQ"), ("value", email)]])]]),
      ("properties", .arr [.str "email", .str "firstname", .str "lastname", .str "hs_object_id"]),
      ("limit", .num 1)] }

/-- Function `searchContactByEmail` from `src/lib/hubspot.ts`. -/
def searchContactByEmail (net : ProxyRequest → ProxyResponse) (base : ApiProfile)
    (email : JValue) : ProxyResponse × List ProxyRequest :=
  runProxy net (searchRequest base email)

/-- Check `(res.data as any)?.total > 0` (the remote search contract supplies a
numeric `total`; non-numeric totals, which JS would coerce, are outside
the model and read as not-greater). -/
def totalPositive : RData → Bool
  | .json (.obj fs) =>
    match getField fs "total" with
    | some (.num n) => n > 0
    | _ => false
  | _ => false

/-- Access `(res.data as any).results?.[0]` — `none` is JS `undefined`. -/
def firstResult : RData → Option JValue
  | .json (.obj fs) =>
    match getField fs "results" with
    | some (.arr (x :: _)) => some x
    | _ => none
  | _ => none

/-- Guard `v || {}` followed by use as a `Record` (`first.properties || {}`);
a truthy non-object here is outside the remote contract and reads as no
fields. -/
def objFields : JValue → List (String × JValue)
  | .obj fs => fs
  | _ => []

/-- Function `planUpsertContactByEmail` from `src/lib/hubspot.ts`
(`src/unnamed/part_001`): `Except.error` models a thrown `TypeError`
(reading `.id` of `undefined` when `total > 0` but `results` is empty or
missing); the request list records the oracle calls performed. -/
def planUpsertContactByEmail (net : ProxyRequest → ProxyResponse) (base : ApiProfile)
    (properties : List (String × JValue)) :
    Except String (UpsertPlan × List ProxyRequest) :=
  let email := objGet properties "email"
  if jsTruthy email = false then
    .ok ({ action := "create", properties }, [])
  else
    let req := searchRequest base email
    let res := net req
    if res.ok && totalPositive res.data then
      match firstResult res.data with
      | none => .error "TypeError: cannot read properties of undefined"
      | some first =>
        let id := jsIndex first "id"
        let propsVal := jsIndex first "properties"
        let currentProps := objFields (if jsTruthy propsVal then propsVal else .obj [])
        let diff := diffProperties currentProps properties
        let hasChanges := decide (0 < diff.length)
        .ok ({ action := if hasChanges then "update" else "noop",
               id, properties, diff := some diff }, [req])
    else
      .ok ({ action := "create", matchEmail := email, properties }, [req])

/-- Function `executeUpsertContactByEmail` from `src/lib/hubspot.ts`
(`src/unnamed/part_001`). -/
def executeUpsertContactByEmail (net : ProxyRequest → ProxyResponse) (base : ApiProfile)
    (plan : UpsertPlan) (dryRun : Bool) : ProxyResponse × List ProxyRequest :=
  if dryRun then
    ({ ok := true, status := 200, statusText := "DryRun", headers := [],
       data := .plan plan, durationMs := some 0 }, [])
  else
    let headers := ensureBearerHeaders base
    if plan.action = "create" then
      runProxy net
        { url := buildUrl base.baseUrl "/crm/v3/objects/contacts" [],
          method := "POST", headers,
          body := .obj [("properties", .obj plan.properties)] }
    else if plan.action = "update" ∧ jsTruthy plan.id then
      runProxy net
        { url := buildUrl base.baseUrl ("/crm/v3/objects/contacts/" ++ jsToString plan.id) [],
          method := "PATCH", headers,
          body := .obj [("properties", .obj plan.properties)] }
    else
      ({ ok := true, status := 200, statusText := "Noop", headers := [],
         data := .plan plan, durationMs := some 0 }, [])

end ApiSim

namespace ApiSim

/-! ### Concrete fixtures -/

/-- The base profile of the spec's end-to-end scenario. -/
def exBase : ApiProfile :=
  { baseUrl := "https://api.example.com", path := "/v3/objects/contacts/search",
    method := "POST",
    body := .obj [("filterGroups", .arr [.obj [("filters", .arr [.obj [
      ("propertyName", .str "email"), ("operator", .str "EQ"), ("value", .str "a@b.com")]])]])] }

/-- Oracle answering every request with the scenario's search hit:
`{total:1, results:[{id:"42", properties:{email:"a@b.com", firstname:"Old"}}]}`. -/
def netSearchHit : ProxyRequest → ProxyResponse := fun _ =>
  { ok := true, status := 200, statusText := "OK",
    data := .json (.obj [("total", .num 1),
      ("results", .arr [.obj [("id", .str "42"),
        ("properties", .obj [("email", .str "a@b.com"), ("firstname", .str "Old")])]])]) }

/-- Oracle answering every request with a remote application failure. -/
def netSearchFail : ProxyRequest → ProxyResponse := fun _ =>
  { ok := false, status := 500, statusText := "Internal Server Error" }

/-- The scenario's mapped properties `{email:"a@b.com", firstname:"New"}`. -/
def mappedProps : List (String × JValue) :=
  [("email", .str "a@b.com"), ("firstname", .str "New")]

/-- Whether a JS value is an array (`Array.isArray`). -/
def isArrB : JValue → Bool
  | .arr _ => true
  | _ => false

/-! Fixtures for the dataset spine/leaf claim: a list of three items whose
second detail fetch fails. -/

def lp3 : ApiProfile := { baseUrl := "https://h", path := "/list", method := "GET" }

def dpr3 : ApiProfile := { baseUrl := "https://h", path := "/detail/\x7bID\x7d", method := "GET" }

def netDs3 : ProxyRequest → ProxyResponse := fun r =>
  if r.url = "https://h/list" then
    { ok := true, status := 200, statusText := "OK",
      data := .json (.obj [("items", .arr [.obj [("id", .num 1)],
        .obj [("id", .num 2)], .obj [("id", .num 3)]])]) }
  else if r.url = "https://h/detail/2" then
    { ok := false, status := 404, statusText := "Not Found" }
  else
    { ok := true, status := 200, statusText := "OK", data := .json (.obj [("u", .str r.url)]) }

def dsOpts3 : DatasetOptions :=
  { detailProfile := some dpr3, idPath := some "id", idVarName := some "ID" }

/-- A GET profile carrying a body. -/
def getBodyProfile : ApiProfile :=
  { baseUrl := "https://h", path := "", method := "GET", body := .str "x" }

/-! ### Helper lemmas -/

theorem setField_setField {α : Type} (l : List (String × α)) (k : String) (v : α) :
    setField (setField l k v) k v = setField l k v := by
  induction l with
  | nil => simp [setField]
  | cons hd tl ih =>
    obtain ⟨k1, w⟩ := hd
    by_cases h : k1 = k
    · simp [setField, h]
    · simp [setField, h, ih]

theorem getField_eq_none_of_not_mem {α : Type} (l : List (String × α)) (k : String)
    (h : k ∉ l.map Prod.fst) : getField l k = none := by
  induction l with
  | nil => rfl
  | cons hd tl ih =>
    obtain ⟨k1, w⟩ := hd
    simp only [List.map_cons, List.mem_cons] at h
    push_neg at h
    simp [getField, Ne.symm h.1, ih h.2]

theorem mem_dedupFirst (k : String) (l : List String) :
    k ∈ dedupFirst l ↔ k ∈ l := by
  induction l with
  | nil => simp [dedupFirst]
  | cons hd tl ih =>
    by_cases h : k = hd
    · simp [dedupFirst, h]
    · simp [dedupFirst, List.mem_filter, h, ih]

theorem nodup_dedupFirst (l : List String) : (dedupFirst l).Nodup := by
  induction l with
  | nil => simp [dedupFirst]
  | cons hd tl ih =>
    simp only [dedupFirst, List.nodup_cons]
    constructor
    · intro hmem
      have h2 := (List.mem_filter.mp hmem).2
      simp at h2
    · exact ih.filter _

theorem foldl_append_filter {β : Type} (l : List String) (p : String → Prop)
    [DecidablePred p] (f : String → β) (init : List β) :
    l.foldl (fun acc k => if p k then acc ++ [f k] else acc) init
      = init ++ (l.filter (fun k => decide (p k))).map f := by
  induction l generalizing init with
  | nil => simp
  | cons hd tl ih =>
    by_cases h : p hd
    · simp [h, ih]
    · simp [h, ih]

theorem filter_eq_single (l : List String) (k0 : String) (p : String → Bool)
    (hn : l.Nodup) (hk : k0 ∈ l) (hp : ∀ k, p k = true ↔ k = k0) :
    l.filter p = [k0] := by
  induction l with
  | nil => cases hk
  | cons hd tl ih =>
    rcases List.mem_cons.mp hk with h | h
    · subst h
      have hpk : p k0 = true := (hp k0).mpr rfl
      have htl : tl.filter p = [] := by
        apply List.filter_eq_nil_iff.mpr
        intro a ha hpa
        have ha2 : a = k0 := (hp a).mp hpa
        subst ha2
        exact (List.nodup_cons.mp hn).1 ha
      simp [List.filter_cons, hpk, htl]
    · have hhd : p hd = false := by
        cases hc : p hd with
        | false => rfl
        | true =>
          have he : hd = k0 := (hp hd).mp hc
          subst he
          exact absurd h (List.nodup_cons.mp hn).1
      rw [List.filter_cons]
      simp only [hhd, Bool.false_eq_true, if_false]
      exact ih (List.nodup_cons.mp hn).2 h

end ApiSim

namespace ApiSim

/-! ### Claim theorems -/

/-- C1: end-to-end planning — with the remote search returning
`{total:1, results:[{id:"42", properties:{email:"a@b.com", firstname:"Old"}}]}`
and mapped properties `{email:"a@b.com", firstname:"New"}`,
`planUpsertContactByEmail` returns exactly
`{action:"update", id:"42", properties:{email:"a@b.com", firstname:"New"},
diff:{firstname:{from:"Old", to:"New"}}}`, the diff holding exactly the one
differing field. -/
theorem claim_C1_end_to_end_plan :
    (planUpsertContactByEmail netSearchHit exBase mappedProps).toOption.map Prod.fst
      = some { action := "update", id := .str "42", properties := mappedProps,
               diff := some [("firstname", (.str "Old", .str "New"))] } := rfl

/-- C3 counterexample: a failed remote search (ok=false, status 500) does
NOT surface as an exception from `planUpsertContactByEmail` — the planner
returns a `create` plan, refuting the claim at this concrete input. -/
theorem claim_C3_counterexample :
    planUpsertContactByEmail netSearchFail exBase mappedProps
      = .ok ({ action := "create", matchEmail := .str "a@b.com", properties := mappedProps },
             [searchRequest exBase (.str "a@b.com")]) := rfl

/-- C3 (amended): for every oracle, base profile and mapped properties with
a truthy email, a failed search (`ok = false`) is treated as "not found":
the planner returns `{action:"create", matchEmail, properties}` after the
single search call, and raises no exception. -/
theorem claim_C3_search_failure_create (net : ProxyRequest → ProxyResponse)
    (base : ApiProfile) (props : List (String × JValue)) (e : JValue)
    (he : objGet props "email" = e) (ht : jsTruthy e = true)
    (hfail : (net (searchRequest base e)).ok = false) :
    planUpsertContactByEmail net base props
      = .ok ({ action := "create", matchEmail := e, properties := props },
             [searchRequest base e]) := by
  simp [planUpsertContactByEmail, he, ht, hfail]

theorem claim_C3_search_failure_create_witness :
    planUpsertContactByEmail netSearchFail exBase mappedProps
      = .ok ({ action := "create", matchEmail := .str "a@b.com", properties := mappedProps },
             [searchRequest exBase (.str "a@b.com")]) :=
  claim_C3_search_failure_create netSearchFail exBase mappedProps (.str "a@b.com") rfl rfl rfl

/-- C6: for every oracle, base profile and plan, dry-run execution
performs zero network calls and returns the synthetic response
`{ok:true, status:200, statusText:"DryRun", data: plan, durationMs:0}`
with `data` the supplied plan itself. -/
theorem claim_C6_dry_run (net : ProxyRequest → ProxyResponse) (base : ApiProfile)
    (plan : UpsertPlan) :
    executeUpsertContactByEmail net base plan true
      = ({ ok := true, status := 200, statusText := "DryRun", headers := [],
           data := .plan plan, durationMs := some 0 }, []) := rfl

/-- C10: for every oracle and base profile, executing (dryRun=false) a plan
with `action = "update"` but no `id` performs zero network calls and
returns the synthetic `{ok:true, status:200, statusText:"Noop",
data: plan, durationMs:0}` response. -/
theorem claim_C10_update_without_id_noop (net : ProxyRequest → ProxyResponse)
    (base : ApiProfile) (plan : UpsertPlan)
    (hact : plan.action = "update") (hid : plan.id = .undefined) :
    executeUpsertContactByEmail net base plan false
      = ({ ok := true, status := 200, statusText := "Noop", headers := [],
           data := .plan plan, durationMs := some 0 }, []) := by
  simp [executeUpsertContactByEmail, hact, hid, jsTruthy]

theorem claim_C10_update_without_id_noop_witness :
    executeUpsertContactByEmail netSearchFail exBase
      { action := "update", properties := mappedProps } false
      = ({ ok := true, status := 200, statusText := "Noop", headers := [],
           data := .plan { action := "update", properties := mappedProps },
           durationMs := some 0 }, []) :=
  claim_C10_update_without_id_noop netSearchFail exBase
    { action := "update", properties := mappedProps } rfl rfl

end ApiSim

namespace ApiSim

/-- Rewriting `diffProperties` as a filter over the deduplicated key union. -/
theorem diffProperties_eq_filter (cur nxt : List (String × JValue)) :
    diffProperties cur nxt
      = ((dedupFirst (cur.map Prod.fst ++ nxt.map Prod.fst)).filter
          (fun k => decide (stringifyJs (objGet cur k) ≠ stringifyJs (objGet nxt k)))).map
          (fun k => (k, (objGet cur k, objGet nxt k))) := by
  simp only [diffProperties]
  rw [foldl_append_filter (dedupFirst (cur.map Prod.fst ++ nxt.map Prod.fst))
    (fun k => stringifyJs (objGet cur k) ≠ stringifyJs (objGet nxt k))
    (fun k => (k, (objGet cur k, objGet nxt k))) []]
  simp

/-- A key differing under the stringify comparison is a key of one of the
two records. -/
theorem mem_keys_of_stringify_ne (cur nxt : List (String × JValue)) (k : String)
    (h : stringifyAt cur k ≠ stringifyAt nxt k) :
    k ∈ dedupFirst (cur.map Prod.fst ++ nxt.map Prod.fst) := by
  rw [mem_dedupFirst, List.mem_append]
  by_contra hc
  push_neg at hc
  have h1 : getField cur k = none := getField_eq_none_of_not_mem cur k hc.1
  have h2 : getField nxt k = none := getField_eq_none_of_not_mem nxt k hc.2
  apply h
  simp [stringifyAt, objGet, h1, h2]

/-- C2 counterexample: the two nested objects differ only in key order, so
they are equal under the spec's canonical (key-order-independent)
serialization, yet `diffProperties` reports a non-empty diff — refuting
the claim that canonically-deep-equal records always diff to empty. -/
theorem claim_C2_counterexample :
    specCanonEq (objGet [("x", .obj [("a", .num 1), ("b", .num 2)])] "x")
        (objGet [("x", .obj [("b", .num 2), ("a", .num 1)])] "x") = true
    ∧ (diffProperties [("x", .obj [("a", .num 1), ("b", .num 2)])]
        [("x", .obj [("b", .num 2), ("a", .num 1)])]).isEmpty = false :=
  ⟨rfl, rfl⟩

/-- C2 (amended): `diffProperties` compares fields by raw `JSON.stringify`
text (insertion-order-sensitive for nested object keys, type-sensitive so
numeric `1` differs from string `"1"`): if every field of the two records
has identical serialization the diff is empty, and if exactly one field
differs the diff is exactly that one entry with `from`/`to` the two field
values. -/
theorem claim_C2_diff_stringify (cur nxt : List (String × JValue)) :
    ((∀ k, stringifyAt cur k = stringifyAt nxt k) → diffProperties cur nxt = [])
    ∧ (∀ k0, stringifyAt cur k0 ≠ stringifyAt nxt k0 →
        (∀ k, k ≠ k0 → stringifyAt cur k = stringifyAt nxt k) →
        diffProperties cur nxt = [(k0, (objGet cur k0, objGet nxt k0))])
    ∧ (diffProperties [("x", .num 1)] [("x", .str "1")]).isEmpty = false := by
  refine ⟨?_, ?_, rfl⟩
  · intro hall
    rw [diffProperties_eq_filter]
    have : (dedupFirst (cur.map Prod.fst ++ nxt.map Prod.fst)).filter
        (fun k => decide (stringifyJs (objGet cur k) ≠ stringifyJs (objGet nxt k))) = [] := by
      apply List.filter_eq_nil_iff.mpr
      intro k hk
      simp only [decide_eq_true_eq]
      intro hne
      exact hne (hall k)
    rw [this]
    rfl
  · intro k0 hne hall
    rw [diffProperties_eq_filter]
    have hf : (dedupFirst (cur.map Prod.fst ++ nxt.map Prod.fst)).filter
        (fun k => decide (stringifyJs (objGet cur k) ≠ stringifyJs (objGet nxt k))) = [k0] := by
      apply filter_eq_single _ k0 _ (nodup_dedupFirst _) (mem_keys_of_stringify_ne cur nxt k0 hne)
      intro k
      simp only [decide_eq_true_eq]
      constructor
      · intro hk
        by_contra hc
        exact hk (hall k hc)
      · intro hk
        subst hk
        exact hne
    rw [hf]
    rfl

theorem claim_C2_diff_stringify_witness :
    diffProperties [("b", .str "v")] [("b", .str "w")]
      = [("b", (.str "v", .str "w"))] := by
  have h := (claim_C2_diff_stringify [("b", .str "v")] [("b", .str "w")]).2.1 "b"
    (by simp [stringifyAt, objGet, getField, stringifyJs, quoteJson, escapeJson, escChar])
    (by
      intro k hk
      simp [stringifyAt, objGet, getField, Ne.symm hk])
  simpa [objGet, getField] using h

end ApiSim

namespace ApiSim

/-- C9: `applyAuth` is idempotent — re-applying it to a profile whose
headers/query were replaced by the first application's output changes
nothing (no double `"Bearer "` prefix, no duplicate header); in this pure
embedding the input profile is never mutated by construction. -/
theorem claim_C9_applyAuth_idempotent (p : ApiProfile) :
    applyAuth { p with headers := (applyAuth p).headers, query := (applyAuth p).query }
      = applyAuth p := by
  cases h : p.auth with
  | none => simp [applyAuth, h]
  | some a =>
    simp only [applyAuth, h]
    split_ifs <;> simp [setField_setField]

/-- C5: for a successful list call and options without a `detailProfile`,
`buildDataset` issues exactly the one list request and returns as rows the
first `maxItems` (default 20) entries of the array at `arrayPath`, in
order; and a non-array value at `arrayPath` degrades to an empty item
list rather than an error. -/
theorem claim_C5_short_circuit (net : ProxyRequest → ProxyResponse) (lp : ApiProfile)
    (ap : String) (opts : DatasetOptions)
    (hdp : opts.detailProfile = none)
    (hok : (net (buildProxyPayload lp)).ok = true) :
    buildDataset net lp ap opts
      = .ok ({ sourceName := lp.name,
               rows := ((listItems (toJV (net (buildProxyPayload lp)).data) ap).take
                 (opts.maxItems.getD 20)).map RData.json },
             [buildProxyPayload lp])
    ∧ (∀ d, isArrB (getPath d ap) = false → listItems d ap = []) := by
  constructor
  · simp [buildDataset, hok, hdp, truncItems]
  · intro d hd
    unfold listItems
    cases hgp : getPath d ap <;> simp_all [isArrB]

theorem claim_C5_short_circuit_witness :
    buildDataset netSearchHit exBase "results" {}
      = .ok ({ sourceName := exBase.name,
               rows := ((listItems (toJV (netSearchHit (buildProxyPayload exBase)).data)
                 "results").take ((none : Option Nat).getD 20)).map RData.json },
             [buildProxyPayload exBase])
    ∧ listItems (.num 5) "results" = [] := by
  have h := claim_C5_short_circuit netSearchHit exBase "results" {} rfl rfl
  exact ⟨h.1, h.2 (.num 5) rfl⟩

/-- C4: spine/leaf asymmetry of `buildDataset` — a failed list call makes
the whole operation fail with an error carrying the remote status and
statusText (no dataset); a failed per-item detail call only turns that
item's row into the `{__error:true, status, statusText}` marker, every
truncated list item still yields exactly one row. -/
theorem claim_C4_spine_leaf (net : ProxyRequest → ProxyResponse) (lp : ApiProfile)
    (ap : String) (opts : DatasetOptions) (dprof : ApiProfile) :
    ((net (buildProxyPayload lp)).ok = false →
        buildDataset net lp ap opts
          = .error ("List request failed: " ++ toString (net (buildProxyPayload lp)).status
              ++ " " ++ (net (buildProxyPayload lp)).statusText))
    ∧ (opts.detailProfile = some dprof → (net (buildProxyPayload lp)).ok = true →
        buildDataset net lp ap opts
          = .ok ({ sourceName := lp.name,
                   rows := (truncItems net lp ap opts).map (detailRow net opts dprof) },
                 buildProxyPayload lp :: (truncItems net lp ap opts).map (detailRequest opts dprof))
        ∧ ((truncItems net lp ap opts).map (detailRow net opts dprof)).length
            = (truncItems net lp ap opts).length)
    ∧ (∀ it, (net (detailRequest opts dprof it)).ok = false →
        detailRow net opts dprof it
          = errorRow (net (detailRequest opts dprof it)).status
              (net (detailRequest opts dprof it)).statusText) := by
  refine ⟨?_, ?_, ?_⟩
  · intro hfail
    simp [buildDataset, hfail]
  · intro hdp hok
    refine ⟨?_, by simp⟩
    simp [buildDataset, hok, hdp]
  · intro it hfail
    simp [detailRow, hfail]

theorem claim_C4_spine_leaf_witness :
    buildDataset netSearchFail lp3 "items" dsOpts3
      = .error "List request failed: 500 Internal Server Error"
    ∧ buildDataset netDs3 lp3 "items" dsOpts3
        = .ok ({ sourceName := lp3.name,
                 rows := [ .json (.obj [("u", .str "https://h/detail/1")]),
                           errorRow 404 "Not Found",
                           .json (.obj [("u", .str "https://h/detail/3")]) ] },
               buildProxyPayload lp3 ::
                 (truncItems netDs3 lp3 "items" dsOpts3).map (detailRequest dsOpts3 dpr3))
    ∧ detailRow netDs3 dsOpts3 dpr3 (.obj [("id", .num 2)]) = errorRow 404 "Not Found" := by
  have h1 := (claim_C4_spine_leaf netSearchFail lp3 "items" dsOpts3 dpr3).1 rfl
  have h2 := ((claim_C4_spine_leaf netDs3 lp3 "items" dsOpts3 dpr3).2.1 rfl rfl).1
  have h3 := (claim_C4_spine_leaf netDs3 lp3 "items" dsOpts3 dpr3).2.2 (.obj [("id", .num 2)]) rfl
  exact ⟨h1, h2, h3⟩

end ApiSim

namespace ApiSim

/-- C7 counterexample: `buildProxyPayload` passes `profile.body` through
unconditionally, so the ProxyRequest built from a GET profile with a body
DOES carry that body — refuting "the ProxyRequest built from it never
carries a body". -/
theorem claim_C7_counterexample :
    (buildProxyPayload getBodyProfile).method = "GET"
    ∧ (buildProxyPayload getBodyProfile).body = .str "x"
    ∧ JValue.str "x" ≠ JValue.undefined :=
  ⟨rfl, rfl, fun h => nomatch h⟩

/-- C7 (amended): `buildProxyPayload` forwards `profile.body` unchanged for
every method; the drop happens one layer down — for every ProxyRequest
handled by the proxy endpoint, the forwarded outbound request omits the
body when the method is GET or HEAD, and carries no header whose name
case-insensitively starts with `host`. -/
theorem claim_C7_proxy_forwarding (p : ApiProfile) (r : ProxyRequest) :
    (buildProxyPayload p).body = p.body
    ∧ ((r.method = "GET" ∨ r.method = "HEAD") → (forwardRequest r).body = none)
    ∧ (∀ kv, kv ∈ (forwardRequest r).headers → startsWithHost kv.1 = false) := by
  refine ⟨rfl, ?_, ?_⟩
  · intro h
    simp [forwardRequest, h]
  · intro kv hkv
    have h := List.mem_filter.mp hkv
    simpa using h.2

theorem claim_C7_proxy_forwarding_witness :
    (forwardRequest (buildProxyPayload getBodyProfile)).body = none
    ∧ startsWithHost "X" = false := by
  refine ⟨(claim_C7_proxy_forwarding getBodyProfile (buildProxyPayload getBodyProfile)).2.1
    (Or.inl rfl), ?_⟩
  exact (claim_C7_proxy_forwarding getBodyProfile
      { url := "u", method := "POST", headers := [("Host", "h"), ("X", "z")], body := .undefined }).2.2
    ("X", "z") (by decide)

end ApiSim

namespace ApiSim

end ApiSim
